import Mathlib

/-!
Verification of the webdial repository: a net.Conn abstraction over HTTP
with two transports, WebSocket (conn_ws.go) and SSE+POST (conn_sse.go,
server.go).  Every definition below is a shallow embedding of the
corresponding Go function; bytes are modelled as Nat values below 256 and
Go strings as lists of byte codes.
-/

namespace Webdial

/-! ## Base64 (Go base64.RawStdEncoding: standard alphabet, no padding)

The SSE data framing base64-encodes payloads with the standard alphabet
and no padding characters (conn_sse.go uses base64.RawStdEncoding for
both EncodeToString and DecodeString).  Characters are modelled by their
ASCII codes. -/

/-- ASCII code of the standard-alphabet base64 digit for a sextet below 64. -/
def b64CharCode (n : Nat) : Nat :=
  if n < 26 then 65 + n
  else if n < 52 then 97 + (n - 26)
  else if n < 62 then 48 + (n - 52)
  else if n = 62 then 43
  else 47

/-- Inverse alphabet lookup: the sextet for an ASCII code, or none when the
code is not a standard-alphabet base64 digit. -/
def b64IndexCode (c : Nat) : Option Nat :=
  if 65 ≤ c ∧ c ≤ 90 then some (c - 65)
  else if 97 ≤ c ∧ c ≤ 122 then some (26 + (c - 97))
  else if 48 ≤ c ∧ c ≤ 57 then some (52 + (c - 48))
  else if c = 43 then some 62
  else if c = 47 then some 63
  else none

theorem b64IndexCode_b64CharCode : ∀ n, n < 64 → b64IndexCode (b64CharCode n) = some n := by
  decide

/-- Go RawStdEncoding encoding: three bytes become four digits; a final
group of one byte becomes two digits and of two bytes becomes three
digits; no padding is emitted. -/
def b64Encode : List Nat → List Nat
  | [] => []
  | [a] => [b64CharCode (a / 4), b64CharCode (a % 4 * 16)]
  | [a, b] => [b64CharCode (a / 4), b64CharCode (a % 4 * 16 + b / 16),
               b64CharCode (b % 16 * 4)]
  | a :: b :: c :: rest =>
      b64CharCode (a / 4) :: b64CharCode (a % 4 * 16 + b / 16) ::
      b64CharCode (b % 16 * 4 + c / 64) :: b64CharCode (c % 64) ::
      b64Encode rest

/-- Go RawStdEncoding decoding (default non-strict mode): rejects
characters outside the alphabet and an input length of 1 mod 4; trailing
bits of a final partial group are discarded, not checked. -/
def b64Decode : List Nat → Option (List Nat)
  | [] => some []
  | [_] => none
  | [w, x] =>
      match b64IndexCode w, b64IndexCode x with
      | some a, some b => some [a * 4 + b / 16]
      | _, _ => none
  | [w, x, y] =>
      match b64IndexCode w, b64IndexCode x, b64IndexCode y with
      | some a, some b, some c => some [a * 4 + b / 16, b % 16 * 16 + c / 4]
      | _, _, _ => none
  | w :: x :: y :: z :: rest =>
      match b64IndexCode w, b64IndexCode x, b64IndexCode y, b64IndexCode z,
            b64Decode rest with
      | some a, some b, some c, some d, some bs =>
          some ((a * 4 + b / 16) :: (b % 16 * 16 + c / 4) :: (c % 4 * 64 + d) :: bs)
      | _, _, _, _, _ => none

theorem b64Decode_b64Encode :
    ∀ l : List Nat, (∀ x ∈ l, x < 256) → b64Decode (b64Encode l) = some l := by
  intro l
  induction l using b64Encode.induct with
  | case1 => intro _; rfl
  | case2 a =>
      intro h
      have ha : a < 256 := h a (by simp)
      have h1 : a / 4 < 64 := by omega
      have h2 : a % 4 * 16 < 64 := by omega
      simp only [b64Encode, b64Decode,
        b64IndexCode_b64CharCode _ h1, b64IndexCode_b64CharCode _ h2]
      simp only [Option.some.injEq, List.cons.injEq, and_true]
      omega
  | case3 a b =>
      intro h
      have ha : a < 256 := h a (by simp)
      have hb : b < 256 := h b (by simp)
      have h1 : a / 4 < 64 := by omega
      have h2 : a % 4 * 16 + b / 16 < 64 := by omega
      have h3 : b % 16 * 4 < 64 := by omega
      simp only [b64Encode, b64Decode,
        b64IndexCode_b64CharCode _ h1, b64IndexCode_b64CharCode _ h2,
        b64IndexCode_b64CharCode _ h3]
      simp only [Option.some.injEq, List.cons.injEq, and_true]
      omega
  | case4 a b c rest ih =>
      intro h
      have ha : a < 256 := h a (by simp)
      have hb : b < 256 := h b (by simp)
      have hc : c < 256 := h c (by simp)
      have hrest : ∀ x ∈ rest, x < 256 := fun x hx => h x (by simp [hx])
      have h1 : a / 4 < 64 := by omega
      have h2 : a % 4 * 16 + b / 16 < 64 := by omega
      have h3 : b % 16 * 4 + c / 64 < 64 := by omega
      have h4 : c % 64 < 64 := by omega
      simp only [b64Encode, b64Decode,
        b64IndexCode_b64CharCode _ h1, b64IndexCode_b64CharCode _ h2,
        b64IndexCode_b64CharCode _ h3, b64IndexCode_b64CharCode _ h4,
        ih hrest]
      have e1 : a / 4 * 4 + (a % 4 * 16 + b / 16) / 16 = a := by omega
      have e2 : (a % 4 * 16 + b / 16) % 16 * 16 + (b % 16 * 4 + c / 64) / 4 = b := by omega
      have e3 : (b % 16 * 4 + c / 64) % 4 * 64 + c % 64 = c := by omega
      simp [e1, e2, e3]

/-! ## SSE wire events and the client read loop (conn_sse.go, sseClientConn.Read)

An eventsource event has a type and a data payload (bytes of the text
payload).  The eventsource decoder attached to the HTTP response body is
external (github.com/jpillora/eventsource); each call to Decode either
yields the next event, or fails: io.EOF at the clean end of the stream,
another error on a broken stream.  We model the sequence of outcomes the
decoder will produce as a list. -/

structure Ev where
  type : String
  data : List Nat
deriving DecidableEq, Repr

inductive DecodeOut where
  /-- Decode yields the next event. -/
  | ev (e : Ev)
  /-- Decode fails; the flag is true when the error is io.EOF (clean end
  of the event stream). -/
  | fail (isEOF : Bool)
deriving DecidableEq, Repr

/-- Result of one Go Read or Write call: n bytes, or io.EOF, or an error. -/
inductive ReadOut where
  | bytes (bs : List Nat)
  | eof
  | err
  /-- The Go call would block waiting for more input (not a return value). -/
  | blocked
deriving DecidableEq, Repr

structure SSEClientReadState where
  readBuf : List Nat
  closed : Bool
  pending : List DecodeOut
deriving DecidableEq, Repr

/-- Model of sseClientConn.Read with a destination buffer of size max: drain
readBuf if nonempty; io.EOF once closed; otherwise decode events in a
loop, buffering the base64-decoded payload of each d event, returning
io.EOF on a close event, an error on a decoder error or invalid base64,
and skipping events of any other type. -/
def sseClientRead (max : Nat) : List Nat → Bool → List DecodeOut →
    ReadOut × SSEClientReadState
  | buf, closed, pending =>
    if buf ≠ [] then
      (.bytes (buf.take max), ⟨buf.drop max, closed, pending⟩)
    else if closed then
      (.eof, ⟨buf, closed, pending⟩)
    else
      match pending with
      | [] => (.blocked, ⟨buf, closed, pending⟩)
      | .fail true :: rest => (.eof, ⟨buf, closed, rest⟩)
      | .fail false :: rest => (.err, ⟨buf, closed, rest⟩)
      | .ev e :: rest =>
        if e.type = "d" then
          match b64Decode e.data with
          | none => (.err, ⟨buf, closed, rest⟩)
          | some bs => sseClientRead max bs closed rest
        else if e.type = "close" then
          (.eof, ⟨buf, true, rest⟩)
        else
          sseClientRead max buf closed rest

/-- Drive sseClientRead until target bytes have accumulated, as a caller
reading in a loop would; none when a read reports anything but bytes. -/
def sseReadUntil (fuel max target : Nat) (st : SSEClientReadState)
    (acc : List Nat) : Option (List Nat) :=
  match fuel with
  | 0 => none
  | fuel + 1 =>
    if target ≤ acc.length then some acc
    else
      match sseClientRead max st.readBuf st.closed st.pending with
      | (.bytes bs, st1) => sseReadUntil fuel max target st1 (acc ++ bs)
      | _ => none

/-! ## SSE client write and close (conn_sse.go, sseClientConn.Write / Close) -/

/-- Outcome of the HTTP POST round trip performed by a client upload, as
the client observes it: a network error, or the response status code. -/
inductive PostOut where
  | netErr
  | status (code : Nat)
deriving DecidableEq, Repr

structure SSEClientIOState where
  closed : Bool
  /-- Bodies of the data uploads issued so far (POST baseURL/post?s=sid). -/
  uploads : List (List Nat)
  /-- Number of close uploads issued so far (POST with close=1). -/
  closeUploads : Nat
  /-- Whether sseResp.Body has been closed. -/
  respBodyClosed : Bool
deriving DecidableEq, Repr

/-- Model of sseClientConn.Write: fails with io.ErrClosedPipe when the connection
is closed, before issuing any request; otherwise issues one POST with
body b and reports success only on status 204. -/
def sseClientWrite (st : SSEClientIOState) (b : List Nat) (post : PostOut) :
    Except String Nat × SSEClientIOState :=
  if st.closed then (.error "io: read/write on closed pipe", st)
  else
    let st1 := { st with uploads := st.uploads ++ [b] }
    match post with
    | .netErr => (.error "webdial: post failed", st1)
    | .status c =>
        if c ≠ 204 then (.error "webdial: post returned non-204", st1)
        else (.ok b.length, st1)

/-- Model of sseClientConn.Close: the first call issues one close upload and
closes the response body; any further call returns nil immediately.
The result is always nil (upload errors are ignored). -/
def sseClientClose (st : SSEClientIOState) : Option String × SSEClientIOState :=
  if st.closed then (none, st)
  else (none, { st with closed := true, closeUploads := st.closeUploads + 1,
                        respBodyClosed := true })

/-! ## SSE server connection (conn_sse.go, sseServerConn) -/

structure SSEServerConnState where
  closed : Bool
  /-- Events written to the HTTP response stream, in order. -/
  events : List Ev
  /-- Whether the read side pipe (readPipe) has been closed. -/
  readPipeClosed : Bool
  /-- Whether closeCh has been closed. -/
  closeChClosed : Bool
deriving DecidableEq, Repr

/-- Model of sseServerConn.Write: io.ErrClosedPipe once closed, before writing
anything; otherwise writes one d event carrying the base64 payload
(wireOk models whether eventsource.WriteEvent reaches the peer). -/
def sseServerWrite (st : SSEServerConnState) (b : List Nat) (wireOk : Bool) :
    Except String Nat × SSEServerConnState :=
  if st.closed then (.error "io: read/write on closed pipe", st)
  else if wireOk then
    (.ok b.length, { st with events := st.events ++ [⟨"d", b64Encode b⟩] })
  else (.error "webdial: write event failed", st)

/-- Model of sseServerConn.writeHeartbeat: io.ErrClosedPipe once closed, otherwise
one ping event with empty payload. -/
def sseServerWriteHeartbeat (st : SSEServerConnState) (wireOk : Bool) :
    Option String × SSEServerConnState :=
  if st.closed then (some "io: read/write on closed pipe", st)
  else if wireOk then
    (none, { st with events := st.events ++ [⟨"ping", []⟩] })
  else (some "webdial: write event failed", st)

/-- Model of sseServerConn.Close: the first call writes the terminal close event,
closes the read pipe and closes closeCh; any further call returns nil
immediately and has no effect.  The result is always nil. -/
def sseServerClose (st : SSEServerConnState) : Option String × SSEServerConnState :=
  if st.closed then (none, st)
  else (none, { closed := true, events := st.events ++ [⟨"close", []⟩],
                readPipeClosed := true, closeChClosed := true })

/-- A write-side operation on a server SSE connection: a data Write or a
heartbeat, each with the outcome of the underlying wire write. -/
inductive SrvWriteOp where
  | write (b : List Nat) (wireOk : Bool)
  | heartbeat (wireOk : Bool)
deriving DecidableEq, Repr

/-- Run a sequence of write-side operations on a server SSE connection. -/
def runSrvOps (st : SSEServerConnState) : List SrvWriteOp → SSEServerConnState
  | [] => st
  | .write b ok :: rest => runSrvOps (sseServerWrite st b ok).2 rest
  | .heartbeat ok :: rest => runSrvOps (sseServerWriteHeartbeat st ok).2 rest

/-! ## Server session registry and handlers (server.go)

A session holds the server-side SSE connection plus the inbound io.Pipe
buffer that feeds the connection Read side; pwClosed records that the
pipe write end was closed (the handleSSE defer does pw.Close()).  The
registry is the sessions association list. -/

structure Session where
  conn : SSEServerConnState
  /-- Bytes buffered in the inbound io.Pipe, not yet consumed by Read. -/
  pipeBuf : List Nat
  /-- Whether the pipe write end (pw) has been closed. -/
  pwClosed : Bool
deriving DecidableEq, Repr

/-- The io.Pipe write as handlePost performs it: appends when both pipe ends
are open; when either end is closed the write fails with
io.ErrClosedPipe and delivers nothing (handlePost ignores this result). -/
def sessionPipeWrite (s : Session) (b : List Nat) : Session :=
  if s.conn.readPipeClosed ∨ s.pwClosed then s
  else { s with pipeBuf := s.pipeBuf ++ b }

/-- Apply sseServerConn.Close to the session connection. -/
def sessionConnClose (s : Session) : Session :=
  { s with conn := (sseServerClose s.conn).2 }

def lookupSession (l : List (String × Session)) (sid : String) : Option Session :=
  l.lookup sid

def updateSession (l : List (String × Session)) (sid : String) (s : Session) :
    List (String × Session) :=
  l.map fun p => if p.1 = sid then (p.1, s) else p

/-- A POST upload request as handlePost sees it: the s query parameter
(empty string when absent, as Go url.Values.Get reports), the close=1
flag, the body, and whether reading the body succeeded. -/
structure PostReq where
  sid : String
  closeFlag : Bool
  body : List Nat
  bodyReadOk : Bool
deriving DecidableEq, Repr

/-- Model of Server.handlePost: 400 when the session id is missing, 404 when it is
unknown; close=1 closes the session connection and answers 204; otherwise
500 when the body cannot be read, else the body is written to the session
pipe (write failure ignored) and the answer is 204. -/
def handlePost (sessions : List (String × Session)) (r : PostReq) :
    Nat × List (String × Session) :=
  if r.sid = "" then (400, sessions)
  else
    match lookupSession sessions r.sid with
    | none => (404, sessions)
    | some sess =>
        if r.closeFlag then
          (204, updateSession sessions r.sid (sessionConnClose sess))
        else if ¬ r.bodyReadOk then (500, sessions)
        else (204, updateSession sessions r.sid (sessionPipeWrite sess r.body))

structure ServerState where
  /-- Connections queued in acceptCh, identified by number. -/
  acceptQ : List Nat
  /-- Whether the closed channel has been closed. -/
  closed : Bool
  sessions : List (String × Session)
deriving DecidableEq, Repr

inductive AcceptOut where
  | conn (id : Nat)
  | errServerClosed
  /-- Both select cases block: no queued connection and not closed. -/
  | blocked
deriving DecidableEq, Repr

/-- Model of Server.Accept: a select over the accept channel and the closed
channel.  When both are ready (a connection is queued and the server is
closed) Go chooses between them nondeterministically; preferQueue models
that choice. -/
def serverAccept (st : ServerState) (preferQueue : Bool) :
    AcceptOut × ServerState :=
  match st.acceptQ, st.closed with
  | c :: rest, false => (.conn c, { st with acceptQ := rest })
  | c :: rest, true =>
      if preferQueue then (.conn c, { st with acceptQ := rest })
      else (.errServerClosed, st)
  | [], true => (.errServerClosed, st)
  | [], false => (.blocked, st)

/-- Model of Server.Close: guarded by a sync.Once; the first call closes the
closed channel, force-closes every registered session connection and
empties the registry; the result is always nil. -/
def serverClose (st : ServerState) : Option String × ServerState :=
  if st.closed then (none, st)
  else (none, { st with closed := true, sessions := [] })

/-! ## The SSE handler (server.go, Server.handleSSE)

The handler is modelled as the ordered trace of its externally visible
effects, driven by the outcomes of its two select statements: whether the
server was already closed when the connection was offered to acceptCh,
and the sequence of wakeups of the heartbeat loop. -/

inductive SrvEff where
  | storeSession (sid : String)
  /-- An event written to the response stream. -/
  | emit (e : Ev)
  /-- The connection was delivered to acceptCh. -/
  | enqueueConn
  /-- Close ran on the connection, closing the read pipe and closeCh. -/
  | connClose
  | deleteSession (sid : String)
  /-- The pipe write end was closed. -/
  | closePipeWriter
deriving DecidableEq, Repr

/-- One wakeup of the handleSSE select loop. -/
inductive LoopEvt where
  /-- The 25-second ticker fired; hbFail is true when writeHeartbeat
  returns an error (connection closed, or the event write failed). -/
  | tick (hbFail : Bool)
  | ctxDone
  | connClosed
  | srvClosed
deriving DecidableEq, Repr

/-- The heartbeat ticker interval of Server.handleSSE, in seconds
(time.NewTicker(25 * time.Second)). -/
def heartbeatIntervalSeconds : Nat := 25

/-- Effects of the handleSSE select loop: each successful tick emits one
ping heartbeat; a failed heartbeat, a cancelled request context, a closed
connection or a closed server ends the handler, running the deferred
session delete and pipe writer close. -/
def sseLoopTrace (sid : String) : List LoopEvt → List SrvEff
  | [] => []
  | .tick false :: rest => .emit ⟨"ping", []⟩ :: sseLoopTrace sid rest
  | .tick true :: _ => [.deleteSession sid, .closePipeWriter]
  | .ctxDone :: _ => [.deleteSession sid, .closePipeWriter]
  | .connClosed :: _ => [.deleteSession sid, .closePipeWriter]
  | .srvClosed :: _ => [.deleteSession sid, .closePipeWriter]

def strBytes (s : String) : List Nat := s.data.map Char.toNat

/-- Model of Server.handleSSE as its effect trace: generate and register the
session, emit the sid event first, then offer the connection to acceptCh
(closing everything down instead when the server is already closed), then
run the heartbeat loop. -/
def handleSSETrace (sid : String) (closedAtEnqueue : Bool)
    (loop : List LoopEvt) : List SrvEff :=
  .storeSession sid :: .emit ⟨"sid", strBytes sid⟩ ::
    (if closedAtEnqueue then
      [.emit ⟨"close", []⟩, .connClose, .deleteSession sid, .closePipeWriter]
    else
      .enqueueConn :: sseLoopTrace sid loop)

/-- The events a trace writes to the response stream, in order. -/
def emittedEvents (t : List SrvEff) : List Ev :=
  t.filterMap fun e =>
    match e with
    | .emit ev => some ev
    | _ => none

/-! ## Client dial over SSE (dial.go dialSSE, and client.mjs dialSSE) -/

/-- The Go dialSSE: non-200 open status is an error; a decoder error on
the first event is an error; a first event of any type other than sid is
an error; otherwise the connection is created with the delivered session
id. -/
def dialSSEGo (status : Nat) (first : DecodeOut) : Except String (List Nat) :=
  if status ≠ 200 then .error "webdial: sse returned non-200"
  else
    match first with
    | .fail _ => .error "webdial: reading session id"
    | .ev e =>
        if e.type ≠ "sid" then .error "webdial: expected sid event"
        else .ok e.data

/-- The JavaScript dialSSE (client.mjs): a non-ok fetch response is an
error; a missing or non-sid first event is an error. -/
def dialSSEJs (respOk : Bool) (first : Option Ev) : Except String (List Nat) :=
  if ¬ respOk then .error "webdial: sse returned non-ok"
  else
    match first with
    | none => .error "webdial: expected sid event"
    | some e =>
        if e.type ≠ "sid" then .error "webdial: expected sid event"
        else .ok e.data

/-! ## WebSocket connection (conn_ws.go, wsConn)

Read keeps one in-flight inbound frame; when the frame is exhausted (a
zero-byte read with io.EOF) it fetches the next discrete message.  The
frames list models the messages the underlying socket will deliver. -/

structure WSReadState where
  reader : Option (List Nat)
  frames : List (List Nat)
deriving DecidableEq, Repr

/-- Model of wsConn.Read with a destination buffer of size max. -/
def wsRead (max : Nat) : Option (List Nat) → List (List Nat) →
    ReadOut × WSReadState
  | none, [] => (.blocked, ⟨none, []⟩)
  | none, f :: fs => wsRead max (some f) fs
  | some r, fs =>
      if _h : r = [] then wsRead max none fs
      else (.bytes (r.take max), ⟨some (r.drop max), fs⟩)
  termination_by r fs => fs.length * 2 + (match r with | some _ => 1 | none => 0)
  decreasing_by
    · simp; omega
    · simp

/-- Drive wsRead until target bytes have accumulated. -/
def wsReadUntil (fuel max target : Nat) (st : WSReadState)
    (acc : List Nat) : Option (List Nat) :=
  match fuel with
  | 0 => none
  | fuel + 1 =>
    if target ≤ acc.length then some acc
    else
      match wsRead max st.reader st.frames with
      | (.bytes bs, st1) => wsReadUntil fuel max target st1 (acc ++ bs)
      | _ => none

/-- Model of wsConn.Write: sends b as one binary message and reports len(b) on
success (wireOk models the underlying WriteMessage outcome). -/
def wsWrite (frames : List (List Nat)) (b : List Nat) (wireOk : Bool) :
    Except String Nat × List (List Nat) :=
  if wireOk then (.ok b.length, frames ++ [b])
  else (.error "websocket: write failed", frames)

structure WSConnLife where
  /-- Whether the done channel has been closed (guarded by a sync.Once). -/
  doneClosed : Bool
  /-- How many times the underlying socket Close has been invoked. -/
  sockCloseCount : Nat
deriving DecidableEq, Repr

/-- Close on the underlying network connection, per the net.Conn
behaviour consumed through gorilla Conn.Close: the first close succeeds,
closing an already-closed connection returns an error. -/
def netConnClose (closeCount : Nat) : Option String :=
  if closeCount = 0 then none else some "use of closed network connection"

/-- Model of wsConn.Close: the once guard only protects the done channel; every
call invokes the underlying socket Close again and returns its result. -/
def wsClose (st : WSConnLife) : Option String × WSConnLife :=
  (netConnClose st.sockCloseCount,
   { doneClosed := true, sockCloseCount := st.sockCloseCount + 1 })

/-! ## Helper lemmas -/

theorem sseReadUntil_drain (max : Nat) (hmax : 1 ≤ max) :
    ∀ (fuel : Nat) (buf acc : List Nat) (closed : Bool) (pending : List DecodeOut),
      buf.length + 1 ≤ fuel →
      sseReadUntil fuel max (acc.length + buf.length) ⟨buf, closed, pending⟩ acc
        = some (acc ++ buf) := by
  intro fuel
  induction fuel with
  | zero => intro buf acc closed pending h; omega
  | succ f ih =>
      intro buf acc closed pending h
      by_cases hb : buf = []
      · subst hb; simp [sseReadUntil]
      · have hb' : 0 < buf.length := List.length_pos.mpr hb
        have hlen : ¬ (acc.length + buf.length ≤ acc.length) := by omega
        rw [sseReadUntil, if_neg hlen]
        have hread : sseClientRead max buf closed pending
            = (.bytes (buf.take max), ⟨buf.drop max, closed, pending⟩) := by
          rw [sseClientRead.eq_def]; simp [hb]
        rw [hread]
        show sseReadUntil f max (acc.length + buf.length)
            ⟨buf.drop max, closed, pending⟩ (acc ++ buf.take max) = some (acc ++ buf)
        have h1 : (buf.drop max).length + 1 ≤ f := by
          simp only [List.length_drop]; omega
        have h2 := ih (buf.drop max) (acc ++ buf.take max) closed pending h1
        have e : (acc ++ buf.take max).length + (buf.drop max).length
            = acc.length + buf.length := by
          simp only [List.length_append, List.length_take, List.length_drop]; omega
        rw [e] at h2
        rw [h2, List.append_assoc, List.take_append_drop]

theorem wsReadUntil_drain (max : Nat) (hmax : 1 ≤ max) :
    ∀ (fuel : Nat) (buf acc : List Nat),
      buf.length + 1 ≤ fuel →
      wsReadUntil fuel max (acc.length + buf.length) ⟨some buf, []⟩ acc
        = some (acc ++ buf) := by
  intro fuel
  induction fuel with
  | zero => intro buf acc h; omega
  | succ f ih =>
      intro buf acc h
      by_cases hb : buf = []
      · subst hb; simp [wsReadUntil]
      · have hb' : 0 < buf.length := List.length_pos.mpr hb
        have hlen : ¬ (acc.length + buf.length ≤ acc.length) := by omega
        rw [wsReadUntil, if_neg hlen]
        have hread : wsRead max (some buf) []
            = (.bytes (buf.take max), ⟨some (buf.drop max), []⟩) := by
          rw [wsRead, dif_neg hb]
        rw [hread]
        show wsReadUntil f max (acc.length + buf.length)
            ⟨some (buf.drop max), []⟩ (acc ++ buf.take max) = some (acc ++ buf)
        have h1 : (buf.drop max).length + 1 ≤ f := by
          simp only [List.length_drop]; omega
        have h2 := ih (buf.drop max) (acc ++ buf.take max) h1
        have e : (acc ++ buf.take max).length + (buf.drop max).length
            = acc.length + buf.length := by
          simp only [List.length_append, List.length_take, List.length_drop]; omega
        rw [e] at h2
        rw [h2, List.append_assoc, List.take_append_drop]

/-! ## Claim theorems -/

/-- Claim C1: for every payload P of bytes, writing P on one end and
reading on the other end until P bytes are received yields exactly P, on
both transports: the SSE server Write emits one d event whose payload is
the unpadded base64 of P and the SSE client Read decodes it back to P;
an upload POST body is appended verbatim to the session pipe by
handlePost; a WebSocket Write sends P as one message and Read returns
exactly P. -/
theorem c1_payload_roundtrip
    (P : List Nat) (hP : ∀ x ∈ P, x < 256) (max : Nat) (hmax : 1 ≤ max)
    (st : SSEServerConnState) (hst : st.closed = false)
    (sessions : List (String × Session)) (sid : String) (sess : Session)
    (hsid : sid ≠ "") (hlk : lookupSession sessions sid = some sess)
    (hrp : sess.conn.readPipeClosed = false) (hpw : sess.pwClosed = false)
    (frames : List (List Nat)) :
    (sseServerWrite st P true).2.events = st.events ++ [⟨"d", b64Encode P⟩]
    ∧ sseReadUntil (P.length + 1 + 1) max P.length
        ⟨[], false, [.ev ⟨"d", b64Encode P⟩]⟩ [] = some P
    ∧ handlePost sessions ⟨sid, false, P, true⟩
        = (204, updateSession sessions sid { sess with pipeBuf := sess.pipeBuf ++ P })
    ∧ wsWrite frames P true = (.ok P.length, frames ++ [P])
    ∧ wsReadUntil (P.length + 1 + 1) max P.length ⟨none, [P]⟩ [] = some P := by
  have hdec := b64Decode_b64Encode P hP
  refine ⟨?_, ?_, ?_, ?_, ?_⟩
  · simp [sseServerWrite, hst]
  · by_cases hPe : P = []
    · subst hPe; simp [sseReadUntil]
    · have hcall : sseClientRead max [] false [.ev ⟨"d", b64Encode P⟩]
          = (.bytes (P.take max), ⟨P.drop max, false, []⟩) := by
        rw [sseClientRead.eq_def]
        simp only [ne_eq, not_true_eq_false, if_false, reduceIte, hdec]
        rw [sseClientRead.eq_def]
        simp [hPe]
      have hlen : ¬ (P.length ≤ ([] : List Nat).length) := by
        simpa using hPe
      rw [sseReadUntil, if_neg hlen]
      simp only [hcall]
      have hd := sseReadUntil_drain max hmax (P.length + 1) (P.drop max)
        (P.take max) false [] (by simp only [List.length_drop]; omega)
      have e : (P.take max).length + (P.drop max).length = P.length := by
        simp only [List.length_take, List.length_drop]; omega
      rw [e, List.take_append_drop] at hd
      simpa using hd
  · have hw : sessionPipeWrite sess P = { sess with pipeBuf := sess.pipeBuf ++ P } := by
      simp [sessionPipeWrite, hrp, hpw]
    simp [handlePost, hsid, hlk, hw]
  · simp [wsWrite]
  · by_cases hPe : P = []
    · subst hPe; simp [wsReadUntil]
    · have hcall : wsRead max none [P]
          = (.bytes (P.take max), ⟨some (P.drop max), []⟩) := by
        rw [wsRead]
        rw [wsRead, dif_neg hPe]
      have hlen : ¬ (P.length ≤ ([] : List Nat).length) := by
        simpa using hPe
      rw [wsReadUntil, if_neg hlen]
      simp only [hcall]
      have hd := wsReadUntil_drain max hmax (P.length + 1) (P.drop max)
        (P.take max) (by simp only [List.length_drop]; omega)
      have e : (P.take max).length + (P.drop max).length = P.length := by
        simp only [List.length_take, List.length_drop]; omega
      rw [e, List.take_append_drop] at hd
      simpa using hd

/-- Witness for C1: the round trip at the concrete payload [0, 255, 7],
buffer size 2, a fresh server connection, a one-session registry and one
queued WebSocket frame. -/
theorem c1_payload_roundtrip_witness :
    (∀ x ∈ [0, 255, 7], x < 256)
    ∧ ((sseServerWrite ⟨false, [], false, false⟩ [0, 255, 7] true).2.events
        = ([] : List Ev) ++ [⟨"d", b64Encode [0, 255, 7]⟩]
      ∧ sseReadUntil (([0, 255, 7] : List Nat).length + 1 + 1) 2
          ([0, 255, 7] : List Nat).length
          ⟨[], false, [.ev ⟨"d", b64Encode [0, 255, 7]⟩]⟩ [] = some [0, 255, 7]
      ∧ handlePost [("abc", ⟨⟨false, [], false, false⟩, [9], false⟩)]
          ⟨"abc", false, [0, 255, 7], true⟩
          = (204, updateSession [("abc", ⟨⟨false, [], false, false⟩, [9], false⟩)]
              "abc" ⟨⟨false, [], false, false⟩, [9] ++ [0, 255, 7], false⟩)
      ∧ wsWrite [[1]] [0, 255, 7] true
          = (.ok ([0, 255, 7] : List Nat).length, [[1]] ++ [[0, 255, 7]])
      ∧ wsReadUntil (([0, 255, 7] : List Nat).length + 1 + 1) 2
          ([0, 255, 7] : List Nat).length ⟨none, [[0, 255, 7]]⟩ [] = some [0, 255, 7]) :=
  ⟨by decide,
   c1_payload_roundtrip [0, 255, 7] (by decide) 2 (by decide)
     ⟨false, [], false, false⟩ rfl
     [("abc", ⟨⟨false, [], false, false⟩, [9], false⟩)] "abc"
     ⟨⟨false, [], false, false⟩, [9], false⟩ (by decide) rfl rfl rfl [[1]]⟩

/-- Counterexample to claim C2: the code acknowledges an upload with 204
without the bytes having been appended.  A close upload closes the
session connection (and its pipe) but the session stays registered until
the handler goroutine runs its deferred delete; a data upload arriving in
that window is answered 204 while the pipe write fails and is ignored, so
nothing is appended. -/
theorem c2_ack_without_append_counterexample :
    (handlePost
      (handlePost [("abc", ⟨⟨false, [], false, false⟩, [], false⟩)]
        ⟨"abc", true, [], true⟩).2
      ⟨"abc", false, [1, 2], true⟩).1 = 204
    ∧ (lookupSession
        (handlePost
          (handlePost [("abc", ⟨⟨false, [], false, false⟩, [], false⟩)]
            ⟨"abc", true, [], true⟩).2
          ⟨"abc", false, [1, 2], true⟩).2 "abc").map Session.pipeBuf
      = some [] := by
  constructor <;> rfl

/-- Claim C2 (amended): handlePost answers 400 when the session id is
missing, 404 when it is unknown, 500 when the body cannot be read, and
204 on a known session for both a close upload (which closes the session)
and a data upload; the data upload appends the body verbatim when the
session pipe is open, but a failed pipe write is ignored and still
acknowledged with 204.  On the client, a write succeeds only on status
204 and any other status is reported as a write error. -/
theorem c2_upload_status
    (sessions : List (String × Session)) (body : List Nat)
    (sid : String) (s : Session) (hsid : sid ≠ "")
    (hlk : lookupSession sessions sid = some s)
    (sid2 : String) (hsid2 : sid2 ≠ "")
    (hunk : lookupSession sessions sid2 = none)
    (cst : SSEClientIOState) (hcst : cst.closed = false) (code : Nat)
    (hcode : code ≠ 204) :
    (handlePost sessions ⟨"", false, body, true⟩).1 = 400
    ∧ (handlePost sessions ⟨sid2, false, body, true⟩).1 = 404
    ∧ (handlePost sessions ⟨sid, false, body, false⟩).1 = 500
    ∧ handlePost sessions ⟨sid, true, body, true⟩
        = (204, updateSession sessions sid (sessionConnClose s))
    ∧ handlePost sessions ⟨sid, false, body, true⟩
        = (204, updateSession sessions sid (sessionPipeWrite s body))
    ∧ (s.conn.readPipeClosed = false → s.pwClosed = false →
        sessionPipeWrite s body = { s with pipeBuf := s.pipeBuf ++ body })
    ∧ (sseClientWrite cst body (.status 204)).1 = .ok body.length
    ∧ (sseClientWrite cst body (.status code)).1
        = .error "webdial: post returned non-204" := by
  refine ⟨?_, ?_, ?_, ?_, ?_, ?_, ?_, ?_⟩
  · simp [handlePost]
  · simp [handlePost, hsid2, hunk]
  · simp [handlePost, hsid, hlk]
  · simp [handlePost, hsid, hlk]
  · simp [handlePost, hsid, hlk]
  · intro h1 h2; simp [sessionPipeWrite, h1, h2]
  · simp [sseClientWrite, hcst]
  · simp [sseClientWrite, hcst, hcode]

/-- Witness for C2 at a concrete registry with one known session. -/
theorem c2_upload_status_witness :
    (handlePost [("abc", ⟨⟨false, [], false, false⟩, [9], false⟩)]
        ⟨"", false, [1], true⟩).1 = 400
    ∧ (handlePost [("abc", ⟨⟨false, [], false, false⟩, [9], false⟩)]
        ⟨"zzz", false, [1], true⟩).1 = 404
    ∧ (handlePost [("abc", ⟨⟨false, [], false, false⟩, [9], false⟩)]
        ⟨"abc", false, [1], false⟩).1 = 500
    ∧ handlePost [("abc", ⟨⟨false, [], false, false⟩, [9], false⟩)]
        ⟨"abc", true, [1], true⟩
        = (204, updateSession [("abc", ⟨⟨false, [], false, false⟩, [9], false⟩)]
            "abc" (sessionConnClose ⟨⟨false, [], false, false⟩, [9], false⟩))
    ∧ handlePost [("abc", ⟨⟨false, [], false, false⟩, [9], false⟩)]
        ⟨"abc", false, [1], true⟩
        = (204, updateSession [("abc", ⟨⟨false, [], false, false⟩, [9], false⟩)]
            "abc" (sessionPipeWrite ⟨⟨false, [], false, false⟩, [9], false⟩ [1]))
    ∧ ((⟨⟨false, [], false, false⟩, [9], false⟩ : Session).conn.readPipeClosed = false →
        (⟨⟨false, [], false, false⟩, [9], false⟩ : Session).pwClosed = false →
        sessionPipeWrite ⟨⟨false, [], false, false⟩, [9], false⟩ [1]
          = ⟨⟨false, [], false, false⟩, [9] ++ [1], false⟩)
    ∧ (sseClientWrite ⟨false, [], 0, false⟩ [1] (.status 204)).1 = .ok ([1] : List Nat).length
    ∧ (sseClientWrite ⟨false, [], 0, false⟩ [1] (.status 500)).1
        = .error "webdial: post returned non-204" :=
  c2_upload_status [("abc", ⟨⟨false, [], false, false⟩, [9], false⟩)] [1]
    "abc" ⟨⟨false, [], false, false⟩, [9], false⟩ (by decide) rfl
    "zzz" (by decide) rfl ⟨false, [], 0, false⟩ rfl 500 (by decide)

/-- Counterexample to claim C3: on the WebSocket connection a second
Close call is not a no-op and does not return nil: wsConn.Close invokes
the underlying socket Close on every call (only the done channel is
guarded by the once), so the second call closes the socket a second time
and returns the resulting error. -/
theorem c3_ws_double_close_counterexample :
    (wsClose (wsClose ⟨false, 0⟩).2).1 = some "use of closed network connection"
    ∧ (wsClose (wsClose ⟨false, 0⟩).2).2.sockCloseCount = 2 := by
  constructor <;> rfl

/-- Claim C3 (amended): Close on both SSE connection variants is
idempotent: after a first Close a second Close returns nil, changes
nothing, and releases nothing a second time (no second close upload, no
second close event, no second channel close).  wsConn.Close closes its
done channel only once, but every call closes the underlying socket again
and returns that result, so its second Close is not a no-op and may
return an error. -/
theorem c3_close_idempotency (cst : SSEClientIOState)
    (sst : SSEServerConnState) (w : WSConnLife) :
    sseClientClose (sseClientClose cst).2 = (none, (sseClientClose cst).2)
    ∧ (sseClientClose (sseClientClose cst).2).2.closeUploads
        = (sseClientClose cst).2.closeUploads
    ∧ sseServerClose (sseServerClose sst).2 = (none, (sseServerClose sst).2)
    ∧ (sseServerClose (sseServerClose sst).2).2.events
        = (sseServerClose sst).2.events
    ∧ (wsClose w).2.doneClosed = true
    ∧ (wsClose (wsClose w).2).2.doneClosed = true
    ∧ (wsClose (wsClose w).2).2.sockCloseCount = w.sockCloseCount + 2
    ∧ (wsClose (wsClose w).2).1 = some "use of closed network connection" := by
  refine ⟨?_, ?_, ?_, ?_, rfl, rfl, rfl, ?_⟩
  · by_cases h : cst.closed <;> simp [sseClientClose, h]
  · by_cases h : cst.closed <;> simp [sseClientClose, h]
  · by_cases h : sst.closed <;> simp [sseServerClose, h]
  · by_cases h : sst.closed <;> simp [sseServerClose, h]
  · simp [wsClose, netConnClose]

/-- Counterexample to claim C4: when a connection is still queued in the
accept channel at the moment of closure, the select in Server.Accept has
both cases ready and Go may pick the queue case, so an Accept call after
Close can return a queued connection instead of observing closure. -/
theorem c4_accept_after_close_counterexample :
    serverAccept ⟨[5], true, []⟩ true = (.conn 5, ⟨[], true, []⟩) := rfl

/-- Claim C4 (amended): before Close, Accept blocks exactly when no
connection is queued and otherwise returns the next queued connection;
after Close, Accept never blocks: with an empty queue it always returns
the server-closed error, and with a nonempty queue it returns either the
error or a queued connection, at the choice of the select. -/
theorem c4_accept_close_behavior (c : Nat) (rest : List Nat)
    (sessions : List (String × Session)) (pick : Bool) :
    serverAccept ⟨[], false, sessions⟩ pick = (.blocked, ⟨[], false, sessions⟩)
    ∧ serverAccept ⟨c :: rest, false, sessions⟩ pick
        = (.conn c, ⟨rest, false, sessions⟩)
    ∧ serverAccept ⟨[], true, sessions⟩ pick
        = (.errServerClosed, ⟨[], true, sessions⟩)
    ∧ (serverAccept ⟨c :: rest, true, sessions⟩ pick).1 ≠ .blocked
    ∧ serverAccept ⟨c :: rest, true, sessions⟩ false
        = (.errServerClosed, ⟨c :: rest, true, sessions⟩)
    ∧ serverAccept ⟨c :: rest, true, sessions⟩ true
        = (.conn c, ⟨rest, true, sessions⟩)
    ∧ (serverClose ⟨c :: rest, false, sessions⟩).2
        = ⟨c :: rest, true, []⟩
    ∧ serverClose ⟨c :: rest, true, sessions⟩
        = (none, ⟨c :: rest, true, sessions⟩) := by
  refine ⟨rfl, rfl, rfl, ?_, rfl, rfl, ?_, ?_⟩
  · cases pick <;> simp [serverAccept]
  · simp [serverClose]
  · simp [serverClose]

/-- Claim C5: the SSE client Read drains buffered decoded bytes before
reporting anything else; once the buffer is empty, the terminal close
event and the decoder reporting the clean end of the event stream (no
terminal event) both surface io.EOF, end of stream rather than an error. -/
theorem c5_read_end_of_stream (max : Nat) (buf : List Nat) (hbuf : buf ≠ [])
    (closed : Bool) (pending rest : List DecodeOut) (d : List Nat) :
    (sseClientRead max buf closed pending).1 = .bytes (buf.take max)
    ∧ sseClientRead max [] false (.ev ⟨"close", d⟩ :: rest) = (.eof, ⟨[], true, rest⟩)
    ∧ sseClientRead max [] false (.fail true :: rest) = (.eof, ⟨[], false, rest⟩)
    ∧ sseClientRead max [] true rest = (.eof, ⟨[], true, rest⟩) := by
  refine ⟨?_, ?_, ?_, ?_⟩
  · rw [sseClientRead.eq_def]; simp [hbuf]
  · rw [sseClientRead.eq_def]; simp
  · rw [sseClientRead.eq_def]; simp
  · rw [sseClientRead.eq_def]; simp

/-- Witness for C5 at a two-byte buffer and concrete pending events. -/
theorem c5_read_end_of_stream_witness :
    (sseClientRead 8 [3, 4] false [.fail true]).1 = .bytes (([3, 4] : List Nat).take 8)
    ∧ sseClientRead 8 [] false [.ev ⟨"close", [1]⟩, .fail false]
        = (.eof, ⟨[], true, [.fail false]⟩)
    ∧ sseClientRead 8 [] false [.fail true, .fail false]
        = (.eof, ⟨[], false, [.fail false]⟩)
    ∧ sseClientRead 8 [] true [.fail false] = (.eof, ⟨[], true, [.fail false]⟩) :=
  c5_read_end_of_stream 8 [3, 4] (by decide) false [.fail true] [.fail false] [1]

/-- Counterexample to claim C6: an event of an unknown type (neither d
nor close, and not the ping heartbeat) does not cause Read to return an
error; the code silently skips every unrecognised event type and keeps
decoding, here delivering the payload of the following d event. -/
theorem c6_unknown_event_counterexample :
    (sseClientRead 10 [] false [.ev ⟨"bogus", [1, 2]⟩, .ev ⟨"d", b64Encode [7]⟩]).1
      = .bytes [7] := by
  rfl

/-- Claim C6 (amended): a d event whose payload is not valid base64
causes Read to return an error to the caller (Read stays a total
function, so the failure never crashes the server); an event of any type
other than d and close, heartbeats included, is skipped as a no-op rather
than being surfaced as an error. -/
theorem c6_protocol_violation (max : Nat) (data : List Nat)
    (hbad : b64Decode data = none) (t : String) (ht : t ≠ "d")
    (ht2 : t ≠ "close") (d2 : List Nat) (rest : List DecodeOut) :
    sseClientRead max [] false (.ev ⟨"d", data⟩ :: rest) = (.err, ⟨[], false, rest⟩)
    ∧ sseClientRead max [] false (.ev ⟨t, d2⟩ :: rest)
        = sseClientRead max [] false rest := by
  constructor
  · rw [sseClientRead.eq_def]; simp [hbad]
  · rw [sseClientRead.eq_def]; simp [ht, ht2]

/-- Witness for C6: a one-character payload is invalid base64 and yields
a read error; a ping event is skipped. -/
theorem c6_protocol_violation_witness :
    sseClientRead 4 [] false [.ev ⟨"d", [65]⟩] = (.err, ⟨[], false, []⟩)
    ∧ sseClientRead 4 [] false [.ev ⟨"ping", []⟩] = sseClientRead 4 [] false [] :=
  c6_protocol_violation 4 [65] rfl "ping" (by decide) (by decide) [] []

/-- Claim C7: handleSSE registers the session and emits the sid event
carrying the session identifier as the first event of the stream, before
the connection is offered to Accept and hence before any data event, on
every schedule; both the Go and the JavaScript dialSSE treat a first
event of any other type, or a failure to read it, as a fatal handshake
failure, and succeed exactly on a first sid event. -/
theorem c7_sid_handshake (sid : String) (closedAtEnq : Bool)
    (loop : List LoopEvt) (e : Ev) (ht : e.type ≠ "sid") (b : Bool)
    (d : List Nat) :
    (handleSSETrace sid closedAtEnq loop).head? = some (.storeSession sid)
    ∧ (emittedEvents (handleSSETrace sid closedAtEnq loop)).head?
        = some ⟨"sid", strBytes sid⟩
    ∧ dialSSEGo 200 (.ev e) = .error "webdial: expected sid event"
    ∧ dialSSEGo 200 (.fail b) = .error "webdial: reading session id"
    ∧ dialSSEGo 200 (.ev ⟨"sid", d⟩) = .ok d
    ∧ dialSSEJs true (some e) = .error "webdial: expected sid event"
    ∧ dialSSEJs true none = .error "webdial: expected sid event"
    ∧ dialSSEJs true (some ⟨"sid", d⟩) = .ok d := by
  refine ⟨rfl, ?_, ?_, rfl, rfl, ?_, rfl, rfl⟩
  · simp [handleSSETrace, emittedEvents]
  · simp [dialSSEGo, ht]
  · simp [dialSSEJs, ht]

/-- Witness for C7 at session id s1 and a first event of type d. -/
theorem c7_sid_handshake_witness :
    (handleSSETrace "s1" false [.tick false]).head? = some (.storeSession "s1")
    ∧ (emittedEvents (handleSSETrace "s1" false [.tick false])).head?
        = some ⟨"sid", strBytes "s1"⟩
    ∧ dialSSEGo 200 (.ev ⟨"d", [3]⟩) = .error "webdial: expected sid event"
    ∧ dialSSEGo 200 (.fail true) = .error "webdial: reading session id"
    ∧ dialSSEGo 200 (.ev ⟨"sid", [7]⟩) = .ok [7]
    ∧ dialSSEJs true (some ⟨"d", [3]⟩) = .error "webdial: expected sid event"
    ∧ dialSSEJs true none = .error "webdial: expected sid event"
    ∧ dialSSEJs true (some ⟨"sid", [7]⟩) = .ok [7] :=
  c7_sid_handshake "s1" false [.tick false] ⟨"d", [3]⟩ (by decide) true [7]

/-- Claim C8: while the session is open the handleSSE loop emits one
heartbeat per firing of its 25-second ticker, the heartbeat being a ping
event with empty payload; a heartbeat write failure is fatal for the
session: the handler terminates, the session is removed from the
registry, and the inbound pipe writer is closed.  A closed connection
makes writeHeartbeat fail with io.ErrClosedPipe. -/
theorem c8_heartbeat (sid : String) (rest : List LoopEvt)
    (st : SSEServerConnState) (hopen : st.closed = false)
    (cst : SSEServerConnState) (hclosed : cst.closed = true) (ok : Bool) :
    heartbeatIntervalSeconds = 25
    ∧ sseLoopTrace sid (.tick false :: rest)
        = .emit ⟨"ping", []⟩ :: sseLoopTrace sid rest
    ∧ (sseServerWriteHeartbeat st true).1 = none
    ∧ (sseServerWriteHeartbeat st true).2.events = st.events ++ [⟨"ping", []⟩]
    ∧ sseLoopTrace sid (.tick true :: rest) = [.deleteSession sid, .closePipeWriter]
    ∧ (sseServerWriteHeartbeat cst ok).1 = some "io: read/write on closed pipe" := by
  refine ⟨rfl, rfl, ?_, ?_, rfl, ?_⟩
  · simp [sseServerWriteHeartbeat, hopen]
  · simp [sseServerWriteHeartbeat, hopen]
  · simp [sseServerWriteHeartbeat, hclosed]

/-- Witness for C8 at session id s1, an open and a closed connection. -/
theorem c8_heartbeat_witness :
    heartbeatIntervalSeconds = 25
    ∧ sseLoopTrace "s1" [.tick false, .ctxDone]
        = .emit ⟨"ping", []⟩ :: sseLoopTrace "s1" [.ctxDone]
    ∧ (sseServerWriteHeartbeat ⟨false, [], false, false⟩ true).1 = none
    ∧ (sseServerWriteHeartbeat ⟨false, [], false, false⟩ true).2.events
        = [] ++ [⟨"ping", []⟩]
    ∧ sseLoopTrace "s1" [.tick true, .ctxDone]
        = [.deleteSession "s1", .closePipeWriter]
    ∧ (sseServerWriteHeartbeat ⟨true, [], true, true⟩ true).1
        = some "io: read/write on closed pipe" :=
  c8_heartbeat "s1" [.ctxDone] ⟨false, [], false, false⟩ rfl
    ⟨true, [], true, true⟩ rfl true

/-- Claim C9: on both SSE connection variants, a Write after the
connection is closed fails with io.ErrClosedPipe and leaves the state
unchanged: the client issues no upload and the server emits no event. -/
theorem c9_write_after_close (b : List Nat) (post : PostOut)
    (cst : SSEClientIOState) (hc : cst.closed = true)
    (sst : SSEServerConnState) (hs : sst.closed = true) (wireOk : Bool) :
    sseClientWrite cst b post = (.error "io: read/write on closed pipe", cst)
    ∧ (sseClientWrite cst b post).2.uploads = cst.uploads
    ∧ sseServerWrite sst b wireOk = (.error "io: read/write on closed pipe", sst)
    ∧ (sseServerWrite sst b wireOk).2.events = sst.events := by
  refine ⟨?_, ?_, ?_, ?_⟩ <;> simp [sseClientWrite, sseServerWrite, hc, hs]

/-- Witness for C9 on freshly closed client and server connections. -/
theorem c9_write_after_close_witness :
    sseClientWrite ⟨true, [[4]], 1, true⟩ [1, 2] (.status 204)
      = (.error "io: read/write on closed pipe", ⟨true, [[4]], 1, true⟩)
    ∧ (sseClientWrite ⟨true, [[4]], 1, true⟩ [1, 2] (.status 204)).2.uploads = [[4]]
    ∧ sseServerWrite ⟨true, [⟨"close", []⟩], true, true⟩ [1, 2] true
      = (.error "io: read/write on closed pipe", ⟨true, [⟨"close", []⟩], true, true⟩)
    ∧ (sseServerWrite ⟨true, [⟨"close", []⟩], true, true⟩ [1, 2] true).2.events
      = [⟨"close", []⟩] :=
  c9_write_after_close [1, 2] (.status 204) ⟨true, [[4]], 1, true⟩ rfl
    ⟨true, [⟨"close", []⟩], true, true⟩ rfl true

theorem runSrvOps_closed (st : SSEServerConnState) (h : st.closed = true) :
    ∀ ops : List SrvWriteOp, runSrvOps st ops = st := by
  intro ops
  induction ops with
  | nil => rfl
  | cons op rest ih =>
      cases op with
      | write b ok =>
          have : (sseServerWrite st b ok).2 = st := by simp [sseServerWrite, h]
          rw [runSrvOps, this, ih]
      | heartbeat ok =>
          have : (sseServerWriteHeartbeat st ok).2 = st := by
            simp [sseServerWriteHeartbeat, h]
          rw [runSrvOps, this, ih]

/-- Claim C10: the terminal close event is the last event written to the
outbound stream: Close appends the close event, and after Close every
sequence of Write and writeHeartbeat calls leaves the event stream
untouched, each call failing with io.ErrClosedPipe, so no d or ping event
ever follows the close event. -/
theorem c10_close_event_last (st : SSEServerConnState) (hopen : st.closed = false)
    (ops : List SrvWriteOp) (b : List Nat) (ok : Bool) :
    (sseServerClose st).2.events = st.events ++ [⟨"close", []⟩]
    ∧ runSrvOps (sseServerClose st).2 ops = (sseServerClose st).2
    ∧ (runSrvOps (sseServerClose st).2 ops).events = st.events ++ [⟨"close", []⟩]
    ∧ (sseServerWrite (sseServerClose st).2 b ok).1
        = .error "io: read/write on closed pipe"
    ∧ (sseServerWriteHeartbeat (sseServerClose st).2 ok).1
        = some "io: read/write on closed pipe" := by
  have hst : (sseServerClose st).2 = ⟨true, st.events ++ [⟨"close", []⟩], true, true⟩ := by
    simp [sseServerClose, hopen]
  have hrun := runSrvOps_closed (sseServerClose st).2 (by rw [hst]) ops
  refine ⟨by rw [hst], hrun, by rw [hrun, hst], ?_, ?_⟩
  · rw [hst]; simp [sseServerWrite]
  · rw [hst]; simp [sseServerWriteHeartbeat]

/-- Witness for C10 on a fresh connection and a mixed sequence of
subsequent writes and heartbeats. -/
theorem c10_close_event_last_witness :
    (sseServerClose ⟨false, [], false, false⟩).2.events = [] ++ [⟨"close", []⟩]
    ∧ runSrvOps (sseServerClose ⟨false, [], false, false⟩).2
        [.write [1] true, .heartbeat true]
      = (sseServerClose ⟨false, [], false, false⟩).2
    ∧ (runSrvOps (sseServerClose ⟨false, [], false, false⟩).2
        [.write [1] true, .heartbeat true]).events = [] ++ [⟨"close", []⟩]
    ∧ (sseServerWrite (sseServerClose ⟨false, [], false, false⟩).2 [1] true).1
        = .error "io: read/write on closed pipe"
    ∧ (sseServerWriteHeartbeat (sseServerClose ⟨false, [], false, false⟩).2 true).1
        = some "io: read/write on closed pipe" :=
  c10_close_event_last ⟨false, [], false, false⟩ rfl
    [.write [1] true, .heartbeat true] [1] true

end Webdial
